import Mathlib

/-!
Verification development for the Completeness Scoring Engine of the
due-diligence triage repository: a shallow embedding, in Lean 4, of the two
rule-based completeness classifiers (legal deal documents and financial
statements) together with proofs about their scoring, hard-fail and
classification behaviour.

The embedding follows the Python sources:
  * `src/agents/deal_completeness_schema.py` (legal result schema and its
    `validate_completeness` pipeline),
  * `src/agents/deal_completeness_analyzer.py` (entity extraction),
  * `src/agents/financial_completeness_schema.py` and
    `src/agents/financial_completeness_analyzer.py` (financial scoring).

The regex / keyword pattern layer is abstracted: each low-level signal
(a boolean produced by one pattern pass over the text) is a field of the
input record, exactly as the schema classes store them.  Fields of the
Python models that are never read by the scoring, hard-fail, flag or
classification logic (the `evidence_snippets` lists and the wholly unread
sub-models `Covenants`, `TerminationAndRemedies`, `Tax`) are omitted; every
field that any embedded function reads is present.  String-valued fields
(entity names, dates, governing law) are kept as strings because the logic
tests their truthiness, exactly as `bool(...)` does in Python.
-/

/-- Sum of a list of booleans, as the Python `sum(hits)` over a list of bools. -/
def hitSum : List Bool → Nat
  | [] => 0
  | b :: t => (if b then 1 else 0) + hitSum t

/-- Python truthiness of a string: `bool(s)` is `True` iff `s` is non-empty. -/
def strPresent (s : String) : Bool := !s.isEmpty

/-- `doc_type_guess` values of `DocumentMetadata`. -/
inductive DocTypeGuess where
  | spa | apa | msa | loi | term_sheet | nda | teaser | financials | other
  deriving DecidableEq, Repr

/-- `source` values of `DocumentMetadata`. -/
inductive SourceKind where
  | pdf | docx | txt | scanned_pdf
  deriving DecidableEq, Repr

/-- `DealInfo.structure` values. -/
inductive DealStructure where
  | asset_purchase | share_purchase | merger | scheme | tender_offer | unknown
  deriving DecidableEq, Repr

/-- `PriceAndPayment.payment_form` values. -/
inductive PaymentForm where
  | cash | stock | mixed | unknown
  deriving DecidableEq, Repr

/-- The three classification tiers. -/
inductive Classification where
  | reject_incomplete | accept_with_warnings | accept_ok
  deriving DecidableEq, Repr

/-- `DocumentMetadata` of `deal_completeness_schema.py`. -/
structure DocumentMetadata where
  doc_type_guess : DocTypeGuess
  language : String := "en"
  page_count : Nat := 0
  source : SourceKind
  ocr_used : Bool := false
  deriving DecidableEq, Repr

/-- `EntityInfo` (only `name` is ever read by the logic; the remaining
pydantic fields `aliases`, `jurisdiction`, `entity_type` are carried for
completeness of the record). -/
structure EntityInfo where
  name : String := ""
  aliases : List String := []
  jurisdiction : String := ""
  deriving DecidableEq, Repr

/-- `Entities`. -/
structure Entities where
  buyer : EntityInfo := {}
  seller : EntityInfo := {}
  target : EntityInfo := {}
  deriving DecidableEq, Repr

/-- `DealInfo` (field `structure` is renamed `structure_` because
`structure` is a Lean keyword). -/
structure DealInfo where
  structure_ : DealStructure := .unknown
  signing_date : String := ""
  closing_date : String := ""
  effective_date : String := ""
  governing_law : String := ""
  venue_forum : String := ""
  defined_terms_present : Bool := false
  schedule_or_exhibit_refs_present : Bool := false
  deriving DecidableEq, Repr

/-- `PriceAndPayment` (without the non-scoring `evidence_snippets`). -/
structure PriceAndPayment where
  purchase_price_present : Bool := false
  currency_present : Bool := false
  enterprise_value_present : Bool := false
  equity_value_present : Bool := false
  net_debt_present : Bool := false
  working_capital_present : Bool := false
  adjustment_mechanism_present : Bool := false
  earnout_present : Bool := false
  escrow_holdback_present : Bool := false
  payment_form : PaymentForm := .unknown
  deriving DecidableEq, Repr

/-- `RepTopics`. -/
structure RepTopics where
  authority_organisation : Bool := false
  capitalisation : Bool := false
  financial_statements : Bool := false
  undisclosed_liabilities : Bool := false
  compliance_with_laws : Bool := false
  tax : Bool := false
  employment_benefits : Bool := false
  ip : Bool := false
  material_contracts : Bool := false
  litigation_investigations : Bool := false
  environmental : Bool := false
  anti_corruption_sanctions_aml : Bool := false
  data_protection_privacy : Bool := false
  deriving DecidableEq, Repr

/-- `RepsAndWarranties`. -/
structure RepsAndWarranties where
  section_present : Bool := false
  disclosure_schedules_present : Bool := false
  mae_mac_present : Bool := false
  knowledge_qualifiers_present : Bool := false
  rep_topics_hit : RepTopics := {}
  deriving DecidableEq, Repr

/-- `ClosingConditions`. -/
structure ClosingConditions where
  section_present : Bool := false
  regulatory_approvals_present : Bool := false
  third_party_consents_present : Bool := false
  shareholder_board_approval_present : Bool := false
  no_injunction_present : Bool := false
  bring_down_present : Bool := false
  deliverables_present : Bool := false
  deriving DecidableEq, Repr

/-- `IndemnitiesAndLimits`. -/
structure IndemnitiesAndLimits where
  indemnity_present : Bool := false
  survival_present : Bool := false
  basket_present : Bool := false
  cap_present : Bool := false
  escrow_claims_process_present : Bool := false
  fraud_carveout_present : Bool := false
  rwi_present : Bool := false
  deriving DecidableEq, Repr

/-- `Financials` (the `standard_present` enum is unread by the scoring
logic and omitted along with `period_covered_present`; the six boolean
fields read by bucket H are kept). -/
structure Financials where
  financial_statements_present : Bool := false
  audited_unaudited_present : Bool := false
  ebitda_present : Bool := false
  revenue_recognition_present : Bool := false
  forecast_budget_present : Bool := false
  qoe_present : Bool := false
  deriving DecidableEq, Repr

/-- `CapitalAndDebt`. -/
structure CapitalAndDebt where
  cap_table_present : Bool := false
  securities_present : Bool := false
  debt_facility_present : Bool := false
  liens_security_interest_present : Bool := false
  defaults_waivers_present : Bool := false
  payoff_release_present : Bool := false
  deriving DecidableEq, Repr

/-- `LitigationAndAllegations`. -/
structure LitigationAndAllegations where
  litigation_present : Bool := false
  allegations_accusations_present : Bool := false
  regulatory_investigation_present : Bool := false
  demand_letters_present : Bool := false
  settlement_consent_order_present : Bool := false
  contingent_liability_reserves_present : Bool := false
  whistleblower_internal_investigation_present : Bool := false
  deriving DecidableEq, Repr

/-- `Compliance`. -/
structure Compliance where
  anti_bribery_present : Bool := false
  aml_kyc_sanctions_present : Bool := false
  competition_antitrust_present : Bool := false
  privacy_data_protection_present : Bool := false
  cybersecurity_breach_present : Bool := false
  export_controls_present : Bool := false
  environment_hs_present : Bool := false
  deriving DecidableEq, Repr

/-- `EvidenceStrength`. -/
structure EvidenceStrength where
  numbers_present : Bool := false
  dates_present : Bool := false
  percentages_present : Bool := false
  defined_term_pattern_present : Bool := false
  schedule_exhibit_pattern_present : Bool := false
  deriving DecidableEq, Repr

/-- `Scores`. -/
structure Scores where
  bucket_coverage_score : Nat := 0
  evidence_strength_score : Nat := 0
  overall_score : Nat := 0
  classification : Classification := .reject_incomplete
  deriving DecidableEq, Repr

/-- `Flags`. -/
structure Flags where
  likely_teaser_or_summary : Bool := false
  missing_core_buckets : List String := []
  generic_language_without_details : Bool := false
  unsupported_no_litigation_claim : Bool := false
  deriving DecidableEq, Repr

/-- `DealCompletenessAnalysis`: the root legal result record.  As in the
Python constructor, `scores` and `flags` default to their all-zero /
all-false values; `analyze_document` fills the signal sub-records from the
text and then calls `validate_completeness`, which mutates `scores` and
`flags`. -/
structure DealCompletenessAnalysis where
  doc_meta : DocumentMetadata
  entities : Entities := {}
  deal : DealInfo := {}
  price_and_payment : PriceAndPayment := {}
  reps_and_warranties : RepsAndWarranties := {}
  closing_conditions : ClosingConditions := {}
  indemnities_and_limits : IndemnitiesAndLimits := {}
  financials : Financials := {}
  capital_and_debt : CapitalAndDebt := {}
  litigation_and_allegations : LitigationAndAllegations := {}
  compliance : Compliance := {}
  evidence_strength : EvidenceStrength := {}
  scores : Scores := {}
  flags : Flags := {}
  deriving DecidableEq, Repr

namespace DealCompletenessAnalysis

/-- `_bucket_a_deal_identity`: deal identity, needs 2+ hits. -/
def bucket_a_deal_identity (a : DealCompletenessAnalysis) : Bool :=
  hitSum [
    strPresent a.entities.buyer.name,
    strPresent a.entities.seller.name,
    strPresent a.entities.target.name,
    a.deal.structure_ != .unknown,
    strPresent a.deal.signing_date || strPresent a.deal.closing_date ||
      strPresent a.deal.effective_date,
    strPresent a.deal.governing_law,
    a.deal.defined_terms_present
  ] ≥ 2

/-- `_bucket_b_price_payment`: price/payment, needs 2+ hits.  (As in the
source, `net_debt_present` and `working_capital_present` are not in the
hit list.) -/
def bucket_b_price_payment (a : DealCompletenessAnalysis) : Bool :=
  hitSum [
    a.price_and_payment.purchase_price_present,
    a.price_and_payment.currency_present,
    a.price_and_payment.enterprise_value_present,
    a.price_and_payment.equity_value_present,
    a.price_and_payment.adjustment_mechanism_present,
    a.price_and_payment.earnout_present,
    a.price_and_payment.escrow_holdback_present,
    a.price_and_payment.payment_form != .unknown
  ] ≥ 2

/-- `_bucket_c_reps_warranties`: reps & warranties, needs 2+ hits; three or
more of the seven listed rep topics count as one hit. -/
def bucket_c_reps_warranties (a : DealCompletenessAnalysis) : Bool :=
  let rep_topic_hits := hitSum [
    a.reps_and_warranties.rep_topics_hit.authority_organisation,
    a.reps_and_warranties.rep_topics_hit.financial_statements,
    a.reps_and_warranties.rep_topics_hit.litigation_investigations,
    a.reps_and_warranties.rep_topics_hit.compliance_with_laws,
    a.reps_and_warranties.rep_topics_hit.material_contracts,
    a.reps_and_warranties.rep_topics_hit.tax,
    a.reps_and_warranties.rep_topics_hit.employment_benefits
  ]
  hitSum [
    a.reps_and_warranties.section_present,
    a.reps_and_warranties.disclosure_schedules_present,
    a.reps_and_warranties.mae_mac_present,
    a.reps_and_warranties.knowledge_qualifiers_present,
    rep_topic_hits ≥ 3
  ] ≥ 2

/-- `_bucket_e_closing_conditions`: closing conditions, needs 2+ hits. -/
def bucket_e_closing_conditions (a : DealCompletenessAnalysis) : Bool :=
  hitSum [
    a.closing_conditions.section_present,
    a.closing_conditions.regulatory_approvals_present,
    a.closing_conditions.third_party_consents_present,
    a.closing_conditions.shareholder_board_approval_present,
    a.closing_conditions.bring_down_present,
    a.closing_conditions.deliverables_present,
    a.closing_conditions.no_injunction_present
  ] ≥ 2

/-- `_bucket_g_indemnities_limits`: indemnities & limits, needs 2+ hits. -/
def bucket_g_indemnities_limits (a : DealCompletenessAnalysis) : Bool :=
  hitSum [
    a.indemnities_and_limits.indemnity_present,
    a.indemnities_and_limits.survival_present,
    a.indemnities_and_limits.basket_present,
    a.indemnities_and_limits.cap_present,
    a.indemnities_and_limits.fraud_carveout_present,
    a.indemnities_and_limits.escrow_claims_process_present,
    a.indemnities_and_limits.rwi_present
  ] ≥ 2

/-- `_bucket_h_financials`: financials, needs 2+ hits. -/
def bucket_h_financials (a : DealCompletenessAnalysis) : Bool :=
  hitSum [
    a.financials.financial_statements_present,
    a.financials.audited_unaudited_present,
    a.financials.ebitda_present,
    a.financials.revenue_recognition_present,
    a.financials.forecast_budget_present,
    a.financials.qoe_present,
    a.capital_and_debt.cap_table_present,
    a.capital_and_debt.debt_facility_present
  ] ≥ 2

/-- `_bucket_k_litigation_allegations`: litigation/allegations, needs 2+
hits. -/
def bucket_k_litigation_allegations (a : DealCompletenessAnalysis) : Bool :=
  hitSum [
    a.litigation_and_allegations.litigation_present,
    a.litigation_and_allegations.allegations_accusations_present,
    a.litigation_and_allegations.regulatory_investigation_present,
    a.litigation_and_allegations.settlement_consent_order_present,
    a.litigation_and_allegations.whistleblower_internal_investigation_present,
    a.compliance.anti_bribery_present,
    a.compliance.aml_kyc_sanctions_present,
    a.compliance.competition_antitrust_present
  ] ≥ 2

/-- `calculate_bucket_coverage`: 10 points per present bucket over the
seven core buckets, max 70. -/
def calculate_bucket_coverage (a : DealCompletenessAnalysis) : Nat :=
  hitSum [
    a.bucket_a_deal_identity,
    a.bucket_b_price_payment,
    a.bucket_c_reps_warranties,
    a.bucket_e_closing_conditions,
    a.bucket_g_indemnities_limits,
    a.bucket_h_financials,
    a.bucket_k_litigation_allegations
  ] * 10

/-- `calculate_evidence_strength`: additive evidence score, capped at 30.
The Python body is a sequence of independent `if cond: score += w`
statements followed by `min(score, 30)`, which equals this sum of
conditionals. -/
def calculate_evidence_strength (a : DealCompletenessAnalysis) : Nat :=
  min
    ((if a.price_and_payment.currency_present ||
         a.evidence_strength.numbers_present then 6 else 0) +
     (if a.evidence_strength.dates_present ||
         (strPresent a.deal.signing_date || strPresent a.deal.closing_date ||
          strPresent a.deal.effective_date) then 6 else 0) +
     (if a.evidence_strength.percentages_present then 4 else 0) +
     (if a.evidence_strength.defined_term_pattern_present ||
         a.deal.defined_terms_present then 7 else 0) +
     (if a.evidence_strength.schedule_exhibit_pattern_present ||
         a.deal.schedule_or_exhibit_refs_present then 7 else 0))
    30

/-- `check_hard_fail_rules`: the four instant-reject rules, evaluated in
order, returning `(triggered, reason)` exactly as the Python method does.
Note that rule 3 reads `a.scores.bucket_coverage_score` (the score stored
in the record at call time) and rule 4 reads
`a.flags.unsupported_no_litigation_claim`. -/
def check_hard_fail_rules (a : DealCompletenessAnalysis) : Bool × String :=
  let parties_present := hitSum [
    strPresent a.entities.buyer.name,
    strPresent a.entities.seller.name,
    strPresent a.entities.target.name
  ]
  if parties_present < 2 then
    (true, "No parties: Buyer/seller/target names not found (at least 2 of 3 missing)")
  else if a.deal.structure_ = .unknown then
    (true, "No transaction structure: No \x27asset purchase/share purchase/merger/acquisition\x27 style hits")
  else
    let has_hard_evidence :=
      a.evidence_strength.numbers_present ||
      a.evidence_strength.dates_present ||
      a.evidence_strength.schedule_exhibit_pattern_present ||
      a.evidence_strength.defined_term_pattern_present
    if !has_hard_evidence ∧ a.scores.bucket_coverage_score < 30 ∧
       (a.doc_meta.doc_type_guess = .teaser ∨ a.doc_meta.doc_type_guess = .other) then
      (true, "Generic-only indicator: High narrative keywords but missing hard evidence")
    else if a.flags.unsupported_no_litigation_claim ∧
            !a.deal.schedule_or_exhibit_refs_present ∧
            !a.reps_and_warranties.disclosure_schedules_present then
      (true, "Unsupported \x27no litigation\x27 claim without schedule references")
    else
      (false, "")

/-- `detect_teaser_or_loi`: soft teaser/LOI flag. -/
def detect_teaser_or_loi (a : DealCompletenessAnalysis) : Bool :=
  let is_teaser_type :=
    a.doc_meta.doc_type_guess = .teaser ∨ a.doc_meta.doc_type_guess = .loi ∨
    a.doc_meta.doc_type_guess = .term_sheet ∨ a.doc_meta.doc_type_guess = .other
  let missing_indemnities := !a.bucket_g_indemnities_limits
  let missing_closing_or_reps :=
    !a.bucket_e_closing_conditions || !a.bucket_c_reps_warranties
  is_teaser_type && missing_indemnities && missing_closing_or_reps

/-- Names of the seven core buckets, for `missing_core_buckets`. -/
def bucket_names : List String :=
  ["deal_identity", "price_payment", "reps_warranties",
   "closing_conditions", "indemnities_limits",
   "financials", "litigation_claims"]

/-- `validate_completeness`: the full scoring / classification / flag
pipeline, returning the updated record (the Python method mutates the same
fields in place). -/
def validate_completeness (a : DealCompletenessAnalysis) : DealCompletenessAnalysis :=
  match a.check_hard_fail_rules with
  | (true, hard_fail_reason) =>
    { a with
      scores := { bucket_coverage_score := 0, evidence_strength_score := 0,
                  overall_score := 0, classification := .reject_incomplete },
      flags := { a.flags with
                 likely_teaser_or_summary := true,
                 missing_core_buckets := ["HARD_FAIL: " ++ hard_fail_reason] } }
  | (false, _) =>
    let bucket_coverage := a.calculate_bucket_coverage
    let evidence_strength_score := a.calculate_evidence_strength
    let overall := bucket_coverage + evidence_strength_score
    let bucket_results := [
      a.bucket_a_deal_identity,
      a.bucket_b_price_payment,
      a.bucket_c_reps_warranties,
      a.bucket_e_closing_conditions,
      a.bucket_g_indemnities_limits,
      a.bucket_h_financials,
      a.bucket_k_litigation_allegations
    ]
    let missing := (bucket_names.zip bucket_results).filterMap
      (fun p => if p.2 then none else some p.1)
    let cls0 : Classification :=
      if overall < 50 then .reject_incomplete
      else if overall < 70 then .accept_with_warnings
      else .accept_ok
    let teaser := a.detect_teaser_or_loi
    let cls1 : Classification :=
      if teaser = true ∧ cls0 = .accept_ok then .accept_with_warnings else cls0
    let generic :=
      if !a.evidence_strength.numbers_present ∧
         !a.evidence_strength.dates_present ∧
         !a.evidence_strength.schedule_exhibit_pattern_present ∧
         !a.evidence_strength.defined_term_pattern_present ∧
         bucket_coverage > 0
      then true else a.flags.generic_language_without_details
    let unsupported :=
      if !a.litigation_and_allegations.litigation_present ∧
         !a.deal.schedule_or_exhibit_refs_present ∧
         !a.reps_and_warranties.disclosure_schedules_present
      then true else a.flags.unsupported_no_litigation_claim
    { a with
      scores := { bucket_coverage_score := bucket_coverage,
                  evidence_strength_score := evidence_strength_score,
                  overall_score := overall,
                  classification := cls1 },
      flags := { likely_teaser_or_summary := teaser,
                 missing_core_buckets := missing,
                 generic_language_without_details := generic,
                 unsupported_no_litigation_claim := unsupported } }

end DealCompletenessAnalysis

/-!
### Entity extraction (`deal_completeness_analyzer.py`, `_extract_entities`)

The regex layer is abstracted: the inputs are the match lists returned by
`re.findall` for the two company patterns (the corporate-suffix pattern
`...Inc|LLC|Ltd|Corp|...` and the `...Holdings|Group|Partners|Capital|
Ventures` pattern), each as `(stripped match, start position)` pairs in
document order, positions carried so that encounter order is expressible.
The Python code drops positions, concatenates the pattern-1 matches before
the pattern-2 matches, filters to length > 5 and passes the list through
`list(set(...))`, whose order is implementation-defined (hash-based); we
model it as first-occurrence deduplication, one admissible order.
-/

/-- First-occurrence deduplication, one admissible order of the Python
`list(set(...))`. -/
def pySetList (l : List String) : List String :=
  l.foldl (fun acc e => if e ∈ acc then acc else acc ++ [e]) []

/-- `_extract_entities`: collect matches pattern by pattern, filter to
length > 5, deduplicate, and assign the first / second / third elements to
buyer / seller / target. -/
def extract_entities (m1 m2 : List (String × Nat)) : Entities :=
  let entities := (m1 ++ m2).map Prod.fst
  let unique_entities := pySetList (entities.filter (fun e => 5 < e.length))
  { buyer := { name := unique_entities.getD 0 "" },
    seller := { name := unique_entities.getD 1 "" },
    target := { name := unique_entities.getD 2 "" } }

/-- Insertion of a match into a position-sorted match list (for the
spec-side encounter-order definition). -/
def insertByPos (p : String × Nat) : List (String × Nat) → List (String × Nat)
  | [] => [p]
  | q :: t => if p.2 ≤ q.2 then p :: q :: t else q :: insertByPos p t

/-- Insertion sort of matches by document position (for the spec-side
encounter-order definition). -/
def sortByPos : List (String × Nat) → List (String × Nat)
  | [] => []
  | p :: t => insertByPos p (sortByPos t)

/-- Modelled from the spec claim (for comparison with `extract_entities`):
assignment of the matches in encounter order, i.e. sorted by document
position across both patterns. -/
def encounter_order_entities (m1 m2 : List (String × Nat)) : Entities :=
  let merged := sortByPos (m1 ++ m2)
  let unique_entities := pySetList ((merged.map Prod.fst).filter (fun e => 5 < e.length))
  { buyer := { name := unique_entities.getD 0 "" },
    seller := { name := unique_entities.getD 1 "" },
    target := { name := unique_entities.getD 2 "" } }

/-!
### Financial completeness (`financial_completeness_schema.py` and
`financial_completeness_analyzer.py`)
-/

/-- `FinancialDocumentType`. -/
inductive FinancialDocumentType where
  | financial_spreadsheet | financial_report
  deriving DecidableEq, Repr

/-- `_determine_document_type`; the argument is `Path(filename).suffix
.lower()` (the extension of the filename, empty when there is none),
abstracted from the filename string. -/
def determine_document_type (ext : String) : FinancialDocumentType :=
  if ext = ".xlsx" ∨ ext = ".xls" ∨ ext = ".csv" then
    .financial_spreadsheet
  else
    .financial_report

/-- `FinancialStatementType`. -/
structure FinancialStatementType where
  profit_and_loss_present : Bool := false
  balance_sheet_present : Bool := false
  cash_flow_present : Bool := false
  notes_present : Bool := false
  deriving DecidableEq, Repr

/-- `PerformanceMetrics`. -/
structure PerformanceMetrics where
  sales_revenue_present : Bool := false
  expenses_present : Bool := false
  net_profit_present : Bool := false
  eps_present : Bool := false
  ebitda_present : Bool := false
  deriving DecidableEq, Repr

/-- `PerformanceMetrics.performance_items_count`. -/
def PerformanceMetrics.performance_items_count (p : PerformanceMetrics) : Nat :=
  hitSum [
    p.sales_revenue_present,
    p.expenses_present,
    p.net_profit_present,
    p.eps_present,
    p.ebitda_present
  ]

/-- `PeriodEvidence`. -/
structure PeriodEvidence where
  fy_ending_present : Bool := false
  quarterly_dates_present : Bool := false
  monthly_periods_present : Bool := false
  year_references_present : Bool := false
  deriving DecidableEq, Repr

/-- `PeriodEvidence.has_period_evidence`. -/
def PeriodEvidence.has_period_evidence (p : PeriodEvidence) : Bool :=
  p.fy_ending_present || p.quarterly_dates_present ||
  p.monthly_periods_present || p.year_references_present

/-- `NumericEvidence`. -/
structure NumericEvidence where
  substantial_numbers_present : Bool := false
  currency_amounts_present : Bool := false
  percentages_present : Bool := false
  ratios_present : Bool := false
  deriving DecidableEq, Repr

/-- `NumericEvidence.numeric_content_score` (0-20): sequential additions,
capped at 20. -/
def NumericEvidence.numeric_content_score (n : NumericEvidence) : Int :=
  min
    ((if n.substantial_numbers_present then 8 else 0) +
     (if n.currency_amounts_present then 5 else 0) +
     (if n.percentages_present then 4 else 0) +
     (if n.ratios_present then 3 else 0))
    20

/-- `FinancialCompletenessScores`. -/
structure FinancialCompletenessScores where
  financial_statements_score : Int := 0
  performance_metrics_score : Int := 0
  period_evidence_score : Int := 0
  numeric_content_score : Int := 0
  overall_score : Int := 0
  classification : Classification := .reject_incomplete
  deriving DecidableEq, Repr

/-- `FinancialCompletenessFlags`. -/
structure FinancialCompletenessFlags where
  no_financial_statements : Bool := false
  insufficient_performance_metrics : Bool := false
  missing_period_evidence : Bool := false
  minimal_numeric_content : Bool := false
  likely_cover_page_only : Bool := false
  likely_notes_only : Bool := false
  deriving DecidableEq, Repr

/-- Financial statements score (0-30): the three sequential `if` additions
at the start of `_calculate_scores`. -/
def statements_score (st : FinancialStatementType) : Int :=
  (if st.profit_and_loss_present then 12 else 0) +
  (if st.balance_sheet_present then 10 else 0) +
  (if st.cash_flow_present then 8 else 0)

/-- Performance metrics score (0-25), from the metric count. -/
def performance_score_of_count (performance_count : Nat) : Int :=
  if performance_count ≥ 3 then 25
  else if performance_count = 2 then 20
  else if performance_count = 1 then 10
  else 0

/-- Period evidence score (0-25): sequential additions capped at 25. -/
def period_score (pe : PeriodEvidence) : Int :=
  min
    ((if pe.fy_ending_present then 12 else 0) +
     (if pe.year_references_present then 8 else 0) +
     (if pe.quarterly_dates_present then 4 else 0) +
     (if pe.monthly_periods_present then 3 else 0))
    25

/-- `data_quality_penalty` of `_calculate_scores`: 10 with no substantial
numbers and no currency amounts, 5 with only no substantial numbers,
else 0. -/
def data_quality_penalty (nu : NumericEvidence) : Int :=
  if !nu.substantial_numbers_present ∧ !nu.currency_amounts_present then 10
  else if !nu.substantial_numbers_present then 5
  else 0

/-- The `total_score` local of `_calculate_scores` before the override
rules: component sum minus the data-quality penalty, floored at 0. -/
def total_score_raw (st : FinancialStatementType) (pf : PerformanceMetrics)
    (pe : PeriodEvidence) (nu : NumericEvidence) : Int :=
  max 0 (statements_score st + performance_score_of_count pf.performance_items_count +
         period_score pe + nu.numeric_content_score - data_quality_penalty nu)

/-- `_calculate_scores`: scores, flags, threshold classification and the
two override rules, in the order of the source.  Returns `(scores, flags)`. -/
def calculate_scores (st : FinancialStatementType) (pf : PerformanceMetrics)
    (pe : PeriodEvidence) (nu : NumericEvidence) :
    FinancialCompletenessScores × FinancialCompletenessFlags :=
  let stS := statements_score st
  let performance_count := pf.performance_items_count
  let pfS := performance_score_of_count performance_count
  let peS := period_score pe
  let nuS := nu.numeric_content_score
  let total0 := total_score_raw st pf pe nu
  let flags : FinancialCompletenessFlags :=
    { no_financial_statements :=
        !(st.profit_and_loss_present || st.balance_sheet_present ||
          st.cash_flow_present),
      insufficient_performance_metrics := performance_count < 2,
      missing_period_evidence := !pe.has_period_evidence,
      minimal_numeric_content :=
        !nu.substantial_numbers_present && !nu.currency_amounts_present,
      likely_cover_page_only := stS = 0 ∧ pfS = 0,
      likely_notes_only := stS > 0 ∧ nuS < 5 }
  let cls0 : Classification :=
    if total0 ≥ 80 then .accept_ok
    else if total0 ≥ 55 then .accept_with_warnings
    else .reject_incomplete
  -- Hard-fail override: no statements and fewer than 2 metrics
  let hard_fail := flags.no_financial_statements ∧
    flags.insufficient_performance_metrics
  let cls1 : Classification := if hard_fail then .reject_incomplete else cls0
  let total1 : Int := if hard_fail then min total0 25 else total0
  -- Template-content rule: sets accept_with_warnings, then forces
  -- reject_incomplete below 40 (mirrors the two sequential assignments)
  let cls2 : Classification :=
    if flags.minimal_numeric_content = true ∧ peS < 10 then
      (if total1 < 40 then .reject_incomplete else .accept_with_warnings)
    else cls1
  ({ financial_statements_score := stS,
     performance_metrics_score := pfS,
     period_evidence_score := peS,
     numeric_content_score := nuS,
     overall_score := total1,
     classification := cls2 },
   flags)

/-!
### Concrete example records used as witnesses
-/

/-- A fully-populated share-purchase-agreement style legal record: every
bucket present, all evidence signals on, two party names resolved. -/
def richAnalysis : DealCompletenessAnalysis :=
  { doc_meta := { doc_type_guess := .spa, source := .pdf },
    entities := { buyer := { name := "Acme Alpha Inc" },
                  seller := { name := "Bravo Beta Corp" } },
    deal := { structure_ := .share_purchase, signing_date := "2023-01-15",
              defined_terms_present := true,
              schedule_or_exhibit_refs_present := true },
    price_and_payment := { purchase_price_present := true,
                           currency_present := true },
    reps_and_warranties := { section_present := true,
                             disclosure_schedules_present := true,
                             mae_mac_present := true },
    closing_conditions := { section_present := true,
                            regulatory_approvals_present := true },
    indemnities_and_limits := { indemnity_present := true,
                                cap_present := true },
    financials := { financial_statements_present := true,
                    audited_unaudited_present := true },
    litigation_and_allegations := { litigation_present := true,
                                    allegations_accusations_present := true },
    evidence_strength := { numbers_present := true, dates_present := true,
                           percentages_present := true,
                           defined_term_pattern_present := true,
                           schedule_exhibit_pattern_present := true } }

/-- The legal record produced for an empty document: every signal absent,
as all pattern passes fail on the empty string. -/
def emptyAnalysis : DealCompletenessAnalysis :=
  { doc_meta := { doc_type_guess := .other, source := .pdf } }

/-- A financial input with all three statements, two performance metrics,
no period evidence and only percentage signals: raw total 44, below the
55 acceptance threshold. -/
def upgradedStatements : FinancialStatementType :=
  { profit_and_loss_present := true, balance_sheet_present := true,
    cash_flow_present := true }

/-- Two performance metrics for the C4 failing input. -/
def upgradedMetrics : PerformanceMetrics :=
  { sales_revenue_present := true, expenses_present := true }

/-- Percentages only (no substantial numbers, no currency) for the C4
failing input. -/
def upgradedNumeric : NumericEvidence := { percentages_present := true }

/-- A legal record with three buckets present (deal identity,
price/payment, reps & warranties — actual coverage 30) but no hard
evidence, document type `other`, two party names and a known structure. -/
def genericOnlyAnalysis : DealCompletenessAnalysis :=
  { doc_meta := { doc_type_guess := .other, source := .pdf },
    entities := { buyer := { name := "Acme Global Holdings" },
                  seller := { name := "Bravo Industrial Partners" } },
    deal := { structure_ := .share_purchase },
    price_and_payment := { purchase_price_present := true,
                           enterprise_value_present := true,
                           equity_value_present := true },
    reps_and_warranties := { mae_mac_present := true,
                             knowledge_qualifiers_present := true } }

/-- A legal record satisfying the `unsupported_no_litigation_claim`
condition (no litigation term, no schedule references, no disclosure
schedules) on which rules 1-3 do not trigger: all seven buckets present,
evidence 23, overall 93. -/
def noLitigationAnalysis : DealCompletenessAnalysis :=
  { doc_meta := { doc_type_guess := .spa, source := .pdf },
    entities := { buyer := { name := "Acme Alpha Inc" },
                  seller := { name := "Bravo Beta Corp" } },
    deal := { structure_ := .share_purchase, signing_date := "2023-01-15",
              defined_terms_present := true },
    price_and_payment := { purchase_price_present := true,
                           currency_present := true },
    reps_and_warranties := { section_present := true, mae_mac_present := true,
                             knowledge_qualifiers_present := true },
    closing_conditions := { section_present := true,
                            regulatory_approvals_present := true },
    indemnities_and_limits := { indemnity_present := true,
                                cap_present := true },
    financials := { financial_statements_present := true,
                    audited_unaudited_present := true },
    litigation_and_allegations := { allegations_accusations_present := true,
                                    regulatory_investigation_present := true },
    evidence_strength := { numbers_present := true, dates_present := true,
                           percentages_present := true,
                           defined_term_pattern_present := true } }

/-- A sparser variant of `richAnalysis`: same parties, structure and date,
but only the price bucket keywords and the numbers evidence signal. -/
def mediumAnalysis : DealCompletenessAnalysis :=
  { doc_meta := { doc_type_guess := .spa, source := .pdf },
    entities := { buyer := { name := "Acme Alpha Inc" },
                  seller := { name := "Bravo Beta Corp" } },
    deal := { structure_ := .share_purchase, signing_date := "2023-01-15" },
    price_and_payment := { purchase_price_present := true,
                           currency_present := true },
    evidence_strength := { numbers_present := true } }

/-- One statement present, for the monotonicity witness. -/
def minimalFinStatements : FinancialStatementType :=
  { profit_and_loss_present := true }

/-- Two metrics present, for the monotonicity witness. -/
def minimalFinMetrics : PerformanceMetrics :=
  { sales_revenue_present := true, expenses_present := true }

/-- All statement signals present, for the monotonicity witness. -/
def fullFinStatements : FinancialStatementType :=
  { profit_and_loss_present := true, balance_sheet_present := true,
    cash_flow_present := true, notes_present := true }

/-- All performance metrics present, for the monotonicity witness. -/
def fullFinMetrics : PerformanceMetrics :=
  { sales_revenue_present := true, expenses_present := true,
    net_profit_present := true, eps_present := true, ebitda_present := true }

/-- All period signals present, for the monotonicity witness. -/
def fullFinPeriods : PeriodEvidence :=
  { fy_ending_present := true, quarterly_dates_present := true,
    monthly_periods_present := true, year_references_present := true }

/-- All numeric signals present, for the monotonicity witness. -/
def fullFinNumeric : NumericEvidence :=
  { substantial_numbers_present := true, currency_amounts_present := true,
    percentages_present := true, ratios_present := true }


/-!
### C9 — monotonicity machinery

Extending a text with material that only adds keyword or evidence pattern
matches can only turn signals from absent to present (every signal is an
existence check over the text); `DealSignalsLE` and `FinSignalsLE` are the
induced pointwise orders on the signal records, stated field by field in
the exact boolean forms of the bucket hit lists.  Adding bucket-keyword
matches can never move the guessed document type into the
`teaser`/`other` group, because the teaser/loi/term-sheet text triggers
are not bucket keywords and `other` is the fall-through default; this is
the `hdoc` hypothesis of the monotonicity theorem.
-/

/-- Pointwise order on the legal signal records: every signal present in
`a` is present in `b`. -/
structure DealSignalsLE (a b : DealCompletenessAnalysis) : Prop where
  buyer_le : strPresent a.entities.buyer.name = true → strPresent b.entities.buyer.name = true
  seller_le : strPresent a.entities.seller.name = true → strPresent b.entities.seller.name = true
  target_le : strPresent a.entities.target.name = true → strPresent b.entities.target.name = true
  structure_le : (a.deal.structure_ != DealStructure.unknown) = true →
    (b.deal.structure_ != DealStructure.unknown) = true
  dates_le : (strPresent a.deal.signing_date || strPresent a.deal.closing_date ||
      strPresent a.deal.effective_date) = true →
    (strPresent b.deal.signing_date || strPresent b.deal.closing_date ||
      strPresent b.deal.effective_date) = true
  law_le : strPresent a.deal.governing_law = true → strPresent b.deal.governing_law = true
  defined_le : a.deal.defined_terms_present = true → b.deal.defined_terms_present = true
  sched_le : a.deal.schedule_or_exhibit_refs_present = true →
    b.deal.schedule_or_exhibit_refs_present = true
  pp_purchase_le : a.price_and_payment.purchase_price_present = true →
    b.price_and_payment.purchase_price_present = true
  pp_currency_le : a.price_and_payment.currency_present = true →
    b.price_and_payment.currency_present = true
  pp_ev_le : a.price_and_payment.enterprise_value_present = true →
    b.price_and_payment.enterprise_value_present = true
  pp_eqv_le : a.price_and_payment.equity_value_present = true →
    b.price_and_payment.equity_value_present = true
  pp_adj_le : a.price_and_payment.adjustment_mechanism_present = true →
    b.price_and_payment.adjustment_mechanism_present = true
  pp_earnout_le : a.price_and_payment.earnout_present = true →
    b.price_and_payment.earnout_present = true
  pp_escrow_le : a.price_and_payment.escrow_holdback_present = true →
    b.price_and_payment.escrow_holdback_present = true
  pp_payform_le : (a.price_and_payment.payment_form != PaymentForm.unknown) = true →
    (b.price_and_payment.payment_form != PaymentForm.unknown) = true
  rw_section_le : a.reps_and_warranties.section_present = true →
    b.reps_and_warranties.section_present = true
  rw_disclosure_le : a.reps_and_warranties.disclosure_schedules_present = true →
    b.reps_and_warranties.disclosure_schedules_present = true
  rw_mae_le : a.reps_and_warranties.mae_mac_present = true →
    b.reps_and_warranties.mae_mac_present = true
  rw_knowledge_le : a.reps_and_warranties.knowledge_qualifiers_present = true →
    b.reps_and_warranties.knowledge_qualifiers_present = true
  rt_authority_le : a.reps_and_warranties.rep_topics_hit.authority_organisation = true →
    b.reps_and_warranties.rep_topics_hit.authority_organisation = true
  rt_finstat_le : a.reps_and_warranties.rep_topics_hit.financial_statements = true →
    b.reps_and_warranties.rep_topics_hit.financial_statements = true
  rt_litig_le : a.reps_and_warranties.rep_topics_hit.litigation_investigations = true →
    b.reps_and_warranties.rep_topics_hit.litigation_investigations = true
  rt_compliance_le : a.reps_and_warranties.rep_topics_hit.compliance_with_laws = true →
    b.reps_and_warranties.rep_topics_hit.compliance_with_laws = true
  rt_contracts_le : a.reps_and_warranties.rep_topics_hit.material_contracts = true →
    b.reps_and_warranties.rep_topics_hit.material_contracts = true
  rt_tax_le : a.reps_and_warranties.rep_topics_hit.tax = true →
    b.reps_and_warranties.rep_topics_hit.tax = true
  rt_employment_le : a.reps_and_warranties.rep_topics_hit.employment_benefits = true →
    b.reps_and_warranties.rep_topics_hit.employment_benefits = true
  cc_section_le : a.closing_conditions.section_present = true →
    b.closing_conditions.section_present = true
  cc_regulatory_le : a.closing_conditions.regulatory_approvals_present = true →
    b.closing_conditions.regulatory_approvals_present = true
  cc_thirdparty_le : a.closing_conditions.third_party_consents_present = true →
    b.closing_conditions.third_party_consents_present = true
  cc_shareholder_le : a.closing_conditions.shareholder_board_approval_present = true →
    b.closing_conditions.shareholder_board_approval_present = true
  cc_bringdown_le : a.closing_conditions.bring_down_present = true →
    b.closing_conditions.bring_down_present = true
  cc_deliverables_le : a.closing_conditions.deliverables_present = true →
    b.closing_conditions.deliverables_present = true
  cc_noinj_le : a.closing_conditions.no_injunction_present = true →
    b.closing_conditions.no_injunction_present = true
  il_indemnity_le : a.indemnities_and_limits.indemnity_present = true →
    b.indemnities_and_limits.indemnity_present = true
  il_survival_le : a.indemnities_and_limits.survival_present = true →
    b.indemnities_and_limits.survival_present = true
  il_basket_le : a.indemnities_and_limits.basket_present = true →
    b.indemnities_and_limits.basket_present = true
  il_cap_le : a.indemnities_and_limits.cap_present = true →
    b.indemnities_and_limits.cap_present = true
  il_fraud_le : a.indemnities_and_limits.fraud_carveout_present = true →
    b.indemnities_and_limits.fraud_carveout_present = true
  il_escrow_le : a.indemnities_and_limits.escrow_claims_process_present = true →
    b.indemnities_and_limits.escrow_claims_process_present = true
  il_rwi_le : a.indemnities_and_limits.rwi_present = true →
    b.indemnities_and_limits.rwi_present = true
  fi_fs_le : a.financials.financial_statements_present = true →
    b.financials.financial_statements_present = true
  fi_audited_le : a.financials.audited_unaudited_present = true →
    b.financials.audited_unaudited_present = true
  fi_ebitda_le : a.financials.ebitda_present = true → b.financials.ebitda_present = true
  fi_revrec_le : a.financials.revenue_recognition_present = true →
    b.financials.revenue_recognition_present = true
  fi_forecast_le : a.financials.forecast_budget_present = true →
    b.financials.forecast_budget_present = true
  fi_qoe_le : a.financials.qoe_present = true → b.financials.qoe_present = true
  cd_captable_le : a.capital_and_debt.cap_table_present = true →
    b.capital_and_debt.cap_table_present = true
  cd_debt_le : a.capital_and_debt.debt_facility_present = true →
    b.capital_and_debt.debt_facility_present = true
  la_lit_le : a.litigation_and_allegations.litigation_present = true →
    b.litigation_and_allegations.litigation_present = true
  la_alleg_le : a.litigation_and_allegations.allegations_accusations_present = true →
    b.litigation_and_allegations.allegations_accusations_present = true
  la_reg_le : a.litigation_and_allegations.regulatory_investigation_present = true →
    b.litigation_and_allegations.regulatory_investigation_present = true
  la_settl_le : a.litigation_and_allegations.settlement_consent_order_present = true →
    b.litigation_and_allegations.settlement_consent_order_present = true
  la_whistle_le : a.litigation_and_allegations.whistleblower_internal_investigation_present = true →
    b.litigation_and_allegations.whistleblower_internal_investigation_present = true
  co_bribery_le : a.compliance.anti_bribery_present = true →
    b.compliance.anti_bribery_present = true
  co_aml_le : a.compliance.aml_kyc_sanctions_present = true →
    b.compliance.aml_kyc_sanctions_present = true
  co_antitrust_le : a.compliance.competition_antitrust_present = true →
    b.compliance.competition_antitrust_present = true
  ev_numbers_le : a.evidence_strength.numbers_present = true →
    b.evidence_strength.numbers_present = true
  ev_dates_le : a.evidence_strength.dates_present = true →
    b.evidence_strength.dates_present = true
  ev_pct_le : a.evidence_strength.percentages_present = true →
    b.evidence_strength.percentages_present = true
  ev_defined_le : a.evidence_strength.defined_term_pattern_present = true →
    b.evidence_strength.defined_term_pattern_present = true
  ev_sched_le : a.evidence_strength.schedule_exhibit_pattern_present = true →
    b.evidence_strength.schedule_exhibit_pattern_present = true

/-- Pointwise order on the financial signal records. -/
structure FinSignalsLE (st₁ st₂ : FinancialStatementType)
    (pf₁ pf₂ : PerformanceMetrics) (pe₁ pe₂ : PeriodEvidence)
    (nu₁ nu₂ : NumericEvidence) : Prop where
  pl_le : st₁.profit_and_loss_present = true → st₂.profit_and_loss_present = true
  bs_le : st₁.balance_sheet_present = true → st₂.balance_sheet_present = true
  cf_le : st₁.cash_flow_present = true → st₂.cash_flow_present = true
  sales_le : pf₁.sales_revenue_present = true → pf₂.sales_revenue_present = true
  exp_le : pf₁.expenses_present = true → pf₂.expenses_present = true
  np_le : pf₁.net_profit_present = true → pf₂.net_profit_present = true
  eps_le : pf₁.eps_present = true → pf₂.eps_present = true
  ebitda_le : pf₁.ebitda_present = true → pf₂.ebitda_present = true
  fy_le : pe₁.fy_ending_present = true → pe₂.fy_ending_present = true
  q_le : pe₁.quarterly_dates_present = true → pe₂.quarterly_dates_present = true
  m_le : pe₁.monthly_periods_present = true → pe₂.monthly_periods_present = true
  yr_le : pe₁.year_references_present = true → pe₂.year_references_present = true
  subst_le : nu₁.substantial_numbers_present = true → nu₂.substantial_numbers_present = true
  curr_le : nu₁.currency_amounts_present = true → nu₂.currency_amounts_present = true
  pct_le : nu₁.percentages_present = true → nu₂.percentages_present = true
  ratio_le : nu₁.ratios_present = true → nu₂.ratios_present = true

/-!
### C1 — overall_score is determined by the component scores and hard-fail
-/

/-- C1.  For every legal input, `overall_score` equals
`bucket_coverage_score + evidence_strength_score` in the returned scores;
when a hard-fail rule triggers all three scores are 0 and the
classification is `reject_incomplete`, and when none triggers the stored
component scores are the computed bucket coverage and evidence strength,
so `overall_score` is never set independently of these two outcomes. -/
theorem legal_overall_determined (a : DealCompletenessAnalysis) :
    (a.validate_completeness.scores.overall_score =
      a.validate_completeness.scores.bucket_coverage_score +
      a.validate_completeness.scores.evidence_strength_score) ∧
    ((a.check_hard_fail_rules).1 = true →
      a.validate_completeness.scores.bucket_coverage_score = 0 ∧
      a.validate_completeness.scores.evidence_strength_score = 0 ∧
      a.validate_completeness.scores.overall_score = 0 ∧
      a.validate_completeness.scores.classification = .reject_incomplete) ∧
    ((a.check_hard_fail_rules).1 = false →
      a.validate_completeness.scores.bucket_coverage_score =
        a.calculate_bucket_coverage ∧
      a.validate_completeness.scores.evidence_strength_score =
        a.calculate_evidence_strength ∧
      a.validate_completeness.scores.overall_score =
        a.calculate_bucket_coverage + a.calculate_evidence_strength) := by
  rcases h : a.check_hard_fail_rules with ⟨hf, reason⟩
  cases hf <;>
    simp [DealCompletenessAnalysis.validate_completeness, h]

/-- Witness for C1 at concrete inputs: the all-empty record hard-fails
(rule 1) with zero scores, and the rich record is scored with
`overall = coverage + evidence`. -/
theorem legal_overall_determined_witness :
    ((emptyAnalysis.check_hard_fail_rules).1 = true ∧
      emptyAnalysis.validate_completeness.scores.overall_score = 0 ∧
      emptyAnalysis.validate_completeness.scores.classification =
        .reject_incomplete) ∧
    ((richAnalysis.check_hard_fail_rules).1 = false ∧
      richAnalysis.validate_completeness.scores.overall_score =
        richAnalysis.calculate_bucket_coverage +
        richAnalysis.calculate_evidence_strength) :=
  ⟨⟨by decide,
    ((legal_overall_determined emptyAnalysis).2.1 (by decide)).2.2.1,
    ((legal_overall_determined emptyAnalysis).2.1 (by decide)).2.2.2⟩,
   ⟨by decide,
    ((legal_overall_determined richAnalysis).2.2 (by decide)).2.2⟩⟩

/-!
### C2 — threshold classification and the teaser downgrade
-/

/-- C2.  For every legal input on which no hard-fail rule triggers, the
final classification is `reject_incomplete` for `overall_score < 50`,
`accept_with_warnings` for `50 ≤ overall_score < 70`, and `accept_ok` for
`overall_score ≥ 70` except that a true `likely_teaser_or_summary` flag
downgrades `accept_ok` to `accept_with_warnings`; the flag holds exactly
when the guessed doc type is teaser/loi/term-sheet/other, the indemnities
bucket is absent, and the closing-conditions or reps-and-warranties bucket
is absent.  The flag only ever appears in the `accept_ok` branch of the
mapping, so it never upgrades a classification. -/
theorem legal_classification_thresholds (a : DealCompletenessAnalysis)
    (h : (a.check_hard_fail_rules).1 = false) :
    (a.validate_completeness.scores.classification =
      (if a.validate_completeness.scores.overall_score < 50 then
        Classification.reject_incomplete
      else if a.validate_completeness.scores.overall_score < 70 then
        Classification.accept_with_warnings
      else if a.validate_completeness.flags.likely_teaser_or_summary then
        Classification.accept_with_warnings
      else Classification.accept_ok)) ∧
    (a.validate_completeness.flags.likely_teaser_or_summary = true ↔
      ((a.doc_meta.doc_type_guess = .teaser ∨ a.doc_meta.doc_type_guess = .loi ∨
        a.doc_meta.doc_type_guess = .term_sheet ∨
        a.doc_meta.doc_type_guess = .other) ∧
       ¬a.bucket_g_indemnities_limits = true ∧
       (¬a.bucket_e_closing_conditions = true ∨
        ¬a.bucket_c_reps_warranties = true))) := by
  rcases hc : a.check_hard_fail_rules with ⟨hf, reason⟩
  rw [hc] at h; subst h
  constructor
  · simp only [DealCompletenessAnalysis.validate_completeness, hc]
    split_ifs <;> simp_all
  · simp only [DealCompletenessAnalysis.validate_completeness, hc,
      DealCompletenessAnalysis.detect_teaser_or_loi]
    simp [Bool.and_eq_true, Bool.or_eq_true, decide_eq_true_iff,
      Bool.not_eq_true', and_assoc]

/-- Witness for C2: the rich record does not hard-fail; it scores 100, its
teaser flag is false, and its classification is `accept_ok`, matching the
claimed mapping. -/
theorem legal_classification_thresholds_witness :
    (richAnalysis.check_hard_fail_rules).1 = false ∧
    (richAnalysis.validate_completeness.scores.classification =
      (if richAnalysis.validate_completeness.scores.overall_score < 50 then
        Classification.reject_incomplete
      else if richAnalysis.validate_completeness.scores.overall_score < 70 then
        Classification.accept_with_warnings
      else if richAnalysis.validate_completeness.flags.likely_teaser_or_summary then
        Classification.accept_with_warnings
      else Classification.accept_ok)) :=
  ⟨by decide, (legal_classification_thresholds richAnalysis (by decide)).1⟩

/-!
### C3 — the financial scoring formula
-/

/-- C3.  For every financial input, the `total_score` computed by the
scoring stage equals
`max 0 (statements + performance + period + numeric − penalty)`, with
`numeric = min 20 (8·[substantial] + 5·[currency] + 4·[percentages] +
3·[ratios])` and `penalty` equal to 10 when neither substantial numbers
nor currency amounts are present, else 5 when substantial numbers are
absent, else 0. -/
theorem financial_total_score_formula (st : FinancialStatementType)
    (pf : PerformanceMetrics) (pe : PeriodEvidence) (nu : NumericEvidence) :
    total_score_raw st pf pe nu =
      max 0 (statements_score st +
        performance_score_of_count pf.performance_items_count +
        period_score pe +
        min (8 * (if nu.substantial_numbers_present then 1 else 0) +
             5 * (if nu.currency_amounts_present then 1 else 0) +
             4 * (if nu.percentages_present then 1 else 0) +
             3 * (if nu.ratios_present then 1 else 0)) 20 -
        (if nu.substantial_numbers_present = false ∧
            nu.currency_amounts_present = false then 10
         else if nu.substantial_numbers_present = false then 5 else 0)) ∧
    nu.numeric_content_score =
      min (8 * (if nu.substantial_numbers_present then 1 else 0) +
           5 * (if nu.currency_amounts_present then 1 else 0) +
           4 * (if nu.percentages_present then 1 else 0) +
           3 * (if nu.ratios_present then 1 else 0)) 20 ∧
    data_quality_penalty nu =
      (if nu.substantial_numbers_present = false ∧
          nu.currency_amounts_present = false then 10
       else if nu.substantial_numbers_present = false then 5 else 0) := by
  rcases nu with ⟨s, c, p, r⟩
  cases s <;> cases c <;> cases p <;> cases r <;>
    norm_num [total_score_raw, NumericEvidence.numeric_content_score,
      data_quality_penalty]

/-!
### C4 — the financial override rules (code bug: the "demotion" can
upgrade a rejection)
-/

/-- C4 (code bug).  On the failing input the raw total is 44, which the
threshold step classifies `reject_incomplete` (44 < 55); the
"minimal numeric content and period_score < 10" rule then sets the
classification to `accept_with_warnings` unconditionally — raising a
rejection, while the claim (and the `# Demote` comment in the source) says
the rule only ever lowers a classification. -/
theorem financial_demotion_upgrades_reject :
    total_score_raw upgradedStatements upgradedMetrics {} upgradedNumeric = 44 ∧
    (44 : Int) < 55 ∧
    (calculate_scores upgradedStatements upgradedMetrics {} upgradedNumeric).2.minimal_numeric_content = true ∧
    (calculate_scores upgradedStatements upgradedMetrics {} upgradedNumeric).2.no_financial_statements = false ∧
    (calculate_scores upgradedStatements upgradedMetrics {} upgradedNumeric).1.overall_score = 44 ∧
    (calculate_scores upgradedStatements upgradedMetrics {} upgradedNumeric).1.classification =
      .accept_with_warnings := by
  decide

/-!
### C5 — hard-fail rule 3 reads a not-yet-computed coverage score
(code bug: it fires even with three buckets present)
-/

/-- C5 (code bug).  `check_hard_fail_rules` runs before
`calculate_bucket_coverage` is stored, so rule 3 tests the stale
`scores.bucket_coverage_score = 0` and fires even though three core
buckets are present (actual coverage 30 ≥ 30): the analysis is rejected
with all scores zeroed, while the claim (and the source comment
`# Less than 3 core buckets`) says rule 3 must not trigger here. -/
theorem legal_rule3_ignores_actual_buckets :
    genericOnlyAnalysis.calculate_bucket_coverage = 30 ∧
    (genericOnlyAnalysis.check_hard_fail_rules).1 = true ∧
    (genericOnlyAnalysis.check_hard_fail_rules).2 =
      "Generic-only indicator: High narrative keywords but missing hard evidence" ∧
    genericOnlyAnalysis.validate_completeness.scores.overall_score = 0 ∧
    genericOnlyAnalysis.validate_completeness.scores.classification =
      .reject_incomplete := by
  decide

/-!
### C6 — hard-fail rule 4 never triggers within a single call
-/

/-- Counterexample to C6: on `noLitigationAnalysis` the defining
condition holds and rules 1-3 do not trigger, yet the analysis is NOT
rejected — it is scored normally (overall 93, `accept_ok`) and only the
returned flag records the unsupported claim. -/
theorem legal_rule4_counterexample :
    noLitigationAnalysis.litigation_and_allegations.litigation_present = false ∧
    noLitigationAnalysis.deal.schedule_or_exhibit_refs_present = false ∧
    noLitigationAnalysis.reps_and_warranties.disclosure_schedules_present = false ∧
    (noLitigationAnalysis.check_hard_fail_rules).1 = false ∧
    noLitigationAnalysis.validate_completeness.scores.overall_score = 93 ∧
    noLitigationAnalysis.validate_completeness.scores.classification =
      .accept_ok ∧
    noLitigationAnalysis.validate_completeness.flags.unsupported_no_litigation_claim =
      true := by
  decide

/-- C6 as amended.  Within a single `analyze_document` call the flags
record starts at its default, so hard-fail rule 4 can never produce its
reason (the flag it tests is still false when the check runs); an input
satisfying the defining condition of the flag that passes rules 1-3 is scored
normally, with `unsupported_no_litigation_claim` set only in the returned
flags. -/
theorem legal_rule4_dead_in_call (a : DealCompletenessAnalysis)
    (hfl : a.flags = {}) :
    ((a.check_hard_fail_rules).2 ≠
      "Unsupported \x27no litigation\x27 claim without schedule references") ∧
    (a.litigation_and_allegations.litigation_present = false →
     a.deal.schedule_or_exhibit_refs_present = false →
     a.reps_and_warranties.disclosure_schedules_present = false →
     (a.check_hard_fail_rules).1 = false →
     a.validate_completeness.flags.unsupported_no_litigation_claim = true ∧
     a.validate_completeness.scores.overall_score =
       a.calculate_bucket_coverage + a.calculate_evidence_strength) := by
  constructor
  · simp only [DealCompletenessAnalysis.check_hard_fail_rules, hfl]
    norm_num
    split_ifs <;> decide
  · intro hlit hsched hdisc hok
    rcases hc : a.check_hard_fail_rules with ⟨hf, reason⟩
    rw [hc] at hok; subst hok
    simp [DealCompletenessAnalysis.validate_completeness, hc, hlit, hsched,
      hdisc]

/-- Witness for the amended C6 at `noLitigationAnalysis`. -/
theorem legal_rule4_dead_in_call_witness :
    noLitigationAnalysis.flags = ({} : Flags) ∧
    ((noLitigationAnalysis.check_hard_fail_rules).2 ≠
      "Unsupported \x27no litigation\x27 claim without schedule references") ∧
    (noLitigationAnalysis.validate_completeness.flags.unsupported_no_litigation_claim = true ∧
     noLitigationAnalysis.validate_completeness.scores.overall_score =
       noLitigationAnalysis.calculate_bucket_coverage +
       noLitigationAnalysis.calculate_evidence_strength) :=
  ⟨rfl, (legal_rule4_dead_in_call noLitigationAnalysis rfl).1,
   (legal_rule4_dead_in_call noLitigationAnalysis rfl).2 rfl rfl rfl
     (by decide)⟩

/-!
### C10 — the flags returned on the hard-fail path
-/

/-- C10.  For every legal input (flags at their constructor defaults, as
in `analyze_document`) on which a hard-fail rule triggers, the returned
flags are exactly: `likely_teaser_or_summary` forced true,
`missing_core_buckets` replaced by the single `"HARD_FAIL: <reason>"`
entry, and `generic_language_without_details` /
`unsupported_no_litigation_claim` left false even when their defining
conditions hold, because flag computation is skipped on this path. -/
theorem legal_hard_fail_flags (a : DealCompletenessAnalysis)
    (hfl : a.flags = {}) (h : (a.check_hard_fail_rules).1 = true) :
    a.validate_completeness.flags =
      { likely_teaser_or_summary := true,
        missing_core_buckets :=
          ["HARD_FAIL: " ++ (a.check_hard_fail_rules).2],
        generic_language_without_details := false,
        unsupported_no_litigation_claim := false } := by
  rcases hc : a.check_hard_fail_rules with ⟨hf, reason⟩
  rw [hc] at h; subst h
  simp [DealCompletenessAnalysis.validate_completeness, hc, hfl]

/-- Witness for C10 at the empty record: rule 1 fires (parties missing,
unrelated to teaser characteristics), and the defining condition of
`unsupported_no_litigation_claim` holds on the input, yet the returned
flag is false. -/
theorem legal_hard_fail_flags_witness :
    emptyAnalysis.flags = ({} : Flags) ∧
    (emptyAnalysis.check_hard_fail_rules).1 = true ∧
    emptyAnalysis.litigation_and_allegations.litigation_present = false ∧
    emptyAnalysis.deal.schedule_or_exhibit_refs_present = false ∧
    emptyAnalysis.reps_and_warranties.disclosure_schedules_present = false ∧
    emptyAnalysis.validate_completeness.flags =
      { likely_teaser_or_summary := true,
        missing_core_buckets :=
          ["HARD_FAIL: " ++ (emptyAnalysis.check_hard_fail_rules).2],
        generic_language_without_details := false,
        unsupported_no_litigation_claim := false } :=
  ⟨rfl, by decide, rfl, rfl, rfl,
   legal_hard_fail_flags emptyAnalysis rfl (by decide)⟩

/-!
### C8 — totality and the empty / garbage input outcome
-/

/-- C8.  The embedded engines are total functions of their inputs; for an
empty or signal-free input (all-false signals, which is what every pattern
pass produces on the empty string) the legal analysis returns all
component scores 0 and `reject_incomplete` with the hard-fail flag entry
populated, the financial analysis returns all component scores 0,
`reject_incomplete` and the explanatory flags set, and the financial
document-type heuristic is defined for every extension, including the
empty one. -/
theorem engines_total_and_empty_rejects :
    (∀ ext : String,
      determine_document_type ext = .financial_spreadsheet ∨
      determine_document_type ext = .financial_report) ∧
    (∀ dm : DocumentMetadata,
      ({ doc_meta := dm } : DealCompletenessAnalysis).validate_completeness.scores =
        { bucket_coverage_score := 0, evidence_strength_score := 0,
          overall_score := 0, classification := .reject_incomplete } ∧
      ({ doc_meta := dm } : DealCompletenessAnalysis).validate_completeness.flags.missing_core_buckets =
        ["HARD_FAIL: No parties: Buyer/seller/target names not found (at least 2 of 3 missing)"] ∧
      ({ doc_meta := dm } : DealCompletenessAnalysis).validate_completeness.flags.likely_teaser_or_summary =
        true) ∧
    ((calculate_scores {} {} {} {}).1 =
      { financial_statements_score := 0, performance_metrics_score := 0,
        period_evidence_score := 0, numeric_content_score := 0,
        overall_score := 0, classification := .reject_incomplete } ∧
     (calculate_scores {} {} {} {}).2 =
      { no_financial_statements := true,
        insufficient_performance_metrics := true,
        missing_period_evidence := true, minimal_numeric_content := true,
        likely_cover_page_only := true, likely_notes_only := false }) := by
  refine ⟨fun ext => ?_, fun dm => ?_, by decide, by decide⟩
  · unfold determine_document_type
    split <;> simp
  · have hc : ({ doc_meta := dm } : DealCompletenessAnalysis).check_hard_fail_rules =
        (true, "No parties: Buyer/seller/target names not found (at least 2 of 3 missing)") := rfl
    refine ⟨?_, ?_, ?_⟩ <;>
      simp [DealCompletenessAnalysis.validate_completeness, hc]

/-!
### C7 — positional entity assignment
-/

/-- Folding the dedup step over elements disjoint from the accumulator
appends them in first-occurrence order. -/
lemma pySetList_go (l : List String) : ∀ (acc : List String),
    (∀ x ∈ l, x ∉ acc) → l.Nodup →
    l.foldl (fun acc e => if e ∈ acc then acc else acc ++ [e]) acc = acc ++ l := by
  induction l with
  | nil => intro acc _ _; simp
  | cons e t ih =>
    intro acc hdisj hnd
    rw [List.foldl_cons, if_neg (hdisj e (by simp))]
    rw [ih (acc ++ [e]) ?_ (List.nodup_cons.mp hnd).2]
    · simp
    · intro x hx
      simp only [List.mem_append, List.mem_singleton]
      rintro (h | rfl)
      · exact hdisj x (by simp [hx]) h
      · exact (List.nodup_cons.mp hnd).1 hx

/-- On a duplicate-free list the modelled `list(set(...))` is the
identity. -/
lemma pySetList_eq_self {l : List String} (h : l.Nodup) : pySetList l = l := by
  unfold pySetList
  simpa using pySetList_go l [] (by simp) h

/-- Counterexample to C7: with one match per pattern, the
`Holdings`-pattern match occurring first in the document (position 0) and
the corporate-suffix match later (position 30), the code assigns the
corporate-suffix match to `buyer` because matches are grouped by pattern
before deduplication — not by document position as the claim states. -/
theorem entity_encounter_order_counterexample :
    (extract_entities [("Bravo Beta Corp", 30)] [("Acme Alpha Holdings", 0)]).buyer.name =
      "Bravo Beta Corp" ∧
    (encounter_order_entities [("Bravo Beta Corp", 30)] [("Acme Alpha Holdings", 0)]).buyer.name =
      "Acme Alpha Holdings" ∧
    extract_entities [("Bravo Beta Corp", 30)] [("Acme Alpha Holdings", 0)] ≠
      encounter_order_entities [("Bravo Beta Corp", 30)] [("Acme Alpha Holdings", 0)] := by
  decide

/-- C7 as amended.  Matches are assigned positionally to buyer, seller,
target in the order of the pattern-grouped match list (all
corporate-suffix-pattern matches first, then the Holdings/Group/...
matches), after filtering to length > 5 and deduplication — not in
document-position order across the two patterns.  Restricted to distinct
matches of the first pattern alone (each longer than 5 characters), the
first, second and third matches in list order (which is document order
within one pattern) go to buyer, seller and target; with fewer matches
the ones found are assigned positionally and the rest stay empty. -/
theorem entity_positional_assignment (l : List (String × Nat))
    (hnd : (l.map Prod.fst).Nodup)
    (hlen : ∀ e ∈ l.map Prod.fst, 5 < e.length) :
    extract_entities l [] =
      { buyer := { name := (l.map Prod.fst).getD 0 "" },
        seller := { name := (l.map Prod.fst).getD 1 "" },
        target := { name := (l.map Prod.fst).getD 2 "" } } := by
  unfold extract_entities
  have hfilter : ((l ++ []).map Prod.fst).filter (fun e => 5 < e.length) =
      l.map Prod.fst := by
    rw [List.append_nil]
    apply List.filter_eq_self.mpr
    intro e he
    exact decide_eq_true (hlen e he)
  simp only [hfilter, pySetList_eq_self hnd]

/-- `hitSum` is monotone under pointwise implication of the bit lists. -/
lemma hitSum_mono {l₁ l₂ : List Bool}
    (h : List.Forall₂ (fun x y => x = true → y = true) l₁ l₂) :
    hitSum l₁ ≤ hitSum l₂ := by
  induction h with
  | nil => exact le_rfl
  | @cons x y t₁ t₂ hxy htail ih =>
    simp only [hitSum]
    have hxy' : (if x then 1 else 0) ≤ (if y then 1 else 0) := by
      cases x
      · simp
      · simp [hxy rfl]
    omega

/-- A weighted conditional is monotone in its condition (Nat weights). -/
lemma ite_weight_mono {c₁ c₂ : Bool} (w : Nat) (h : c₁ = true → c₂ = true) :
    (if c₁ then w else 0) ≤ (if c₂ then w else 0) := by
  cases c₁
  · simp
  · simp [h rfl]

/-- A weighted conditional is monotone in its condition (Int weights). -/
lemma ite_weight_mono_int {c₁ c₂ : Bool} (w : Int) (hw : 0 ≤ w)
    (h : c₁ = true → c₂ = true) :
    (if c₁ then w else 0) ≤ (if c₂ then w else 0) := by
  cases c₁
  · cases c₂ <;> simp [hw]
  · simp [h rfl]

/-- Pointwise implication distributes over boolean disjunction. -/
lemma bor_impl {x₁ y₁ x₂ y₂ : Bool} (hx : x₁ = true → x₂ = true)
    (hy : y₁ = true → y₂ = true) : (x₁ || y₁) = true → (x₂ || y₂) = true := by
  cases x₁ <;> cases y₁ <;> simp_all

/-- Bucket A presence is monotone. -/
lemma bucket_a_mono {a b : DealCompletenessAnalysis} (h : DealSignalsLE a b)
    (ha : a.bucket_a_deal_identity = true) : b.bucket_a_deal_identity = true := by
  simp only [DealCompletenessAnalysis.bucket_a_deal_identity,
    decide_eq_true_iff] at ha ⊢
  refine le_trans ha (hitSum_mono ?_)
  exact .cons h.buyer_le (.cons h.seller_le (.cons h.target_le
    (.cons h.structure_le (.cons h.dates_le (.cons h.law_le
    (.cons h.defined_le .nil))))))

/-- Bucket B presence is monotone. -/
lemma bucket_b_mono {a b : DealCompletenessAnalysis} (h : DealSignalsLE a b)
    (ha : a.bucket_b_price_payment = true) : b.bucket_b_price_payment = true := by
  simp only [DealCompletenessAnalysis.bucket_b_price_payment,
    decide_eq_true_iff] at ha ⊢
  refine le_trans ha (hitSum_mono ?_)
  exact .cons h.pp_purchase_le (.cons h.pp_currency_le (.cons h.pp_ev_le
    (.cons h.pp_eqv_le (.cons h.pp_adj_le (.cons h.pp_earnout_le
    (.cons h.pp_escrow_le (.cons h.pp_payform_le .nil)))))))

/-- Bucket C presence is monotone. -/
lemma bucket_c_mono {a b : DealCompletenessAnalysis} (h : DealSignalsLE a b)
    (ha : a.bucket_c_reps_warranties = true) : b.bucket_c_reps_warranties = true := by
  have htopics : hitSum [
      a.reps_and_warranties.rep_topics_hit.authority_organisation,
      a.reps_and_warranties.rep_topics_hit.financial_statements,
      a.reps_and_warranties.rep_topics_hit.litigation_investigations,
      a.reps_and_warranties.rep_topics_hit.compliance_with_laws,
      a.reps_and_warranties.rep_topics_hit.material_contracts,
      a.reps_and_warranties.rep_topics_hit.tax,
      a.reps_and_warranties.rep_topics_hit.employment_benefits] ≤ hitSum [
      b.reps_and_warranties.rep_topics_hit.authority_organisation,
      b.reps_and_warranties.rep_topics_hit.financial_statements,
      b.reps_and_warranties.rep_topics_hit.litigation_investigations,
      b.reps_and_warranties.rep_topics_hit.compliance_with_laws,
      b.reps_and_warranties.rep_topics_hit.material_contracts,
      b.reps_and_warranties.rep_topics_hit.tax,
      b.reps_and_warranties.rep_topics_hit.employment_benefits] :=
    hitSum_mono (.cons h.rt_authority_le (.cons h.rt_finstat_le
      (.cons h.rt_litig_le (.cons h.rt_compliance_le (.cons h.rt_contracts_le
      (.cons h.rt_tax_le (.cons h.rt_employment_le .nil)))))))
  simp only [DealCompletenessAnalysis.bucket_c_reps_warranties,
    decide_eq_true_iff] at ha ⊢
  refine le_trans ha (hitSum_mono ?_)
  refine .cons h.rw_section_le (.cons h.rw_disclosure_le (.cons h.rw_mae_le
    (.cons h.rw_knowledge_le (.cons ?_ .nil))))
  intro hx
  rw [decide_eq_true_iff] at hx ⊢
  exact le_trans hx htopics

/-- Bucket E presence is monotone. -/
lemma bucket_e_mono {a b : DealCompletenessAnalysis} (h : DealSignalsLE a b)
    (ha : a.bucket_e_closing_conditions = true) :
    b.bucket_e_closing_conditions = true := by
  simp only [DealCompletenessAnalysis.bucket_e_closing_conditions,
    decide_eq_true_iff] at ha ⊢
  refine le_trans ha (hitSum_mono ?_)
  exact .cons h.cc_section_le (.cons h.cc_regulatory_le
    (.cons h.cc_thirdparty_le (.cons h.cc_shareholder_le
    (.cons h.cc_bringdown_le (.cons h.cc_deliverables_le
    (.cons h.cc_noinj_le .nil))))))

/-- Bucket G presence is monotone. -/
lemma bucket_g_mono {a b : DealCompletenessAnalysis} (h : DealSignalsLE a b)
    (ha : a.bucket_g_indemnities_limits = true) :
    b.bucket_g_indemnities_limits = true := by
  simp only [DealCompletenessAnalysis.bucket_g_indemnities_limits,
    decide_eq_true_iff] at ha ⊢
  refine le_trans ha (hitSum_mono ?_)
  exact .cons h.il_indemnity_le (.cons h.il_survival_le (.cons h.il_basket_le
    (.cons h.il_cap_le (.cons h.il_fraud_le (.cons h.il_escrow_le
    (.cons h.il_rwi_le .nil))))))

/-- Bucket H presence is monotone. -/
lemma bucket_h_mono {a b : DealCompletenessAnalysis} (h : DealSignalsLE a b)
    (ha : a.bucket_h_financials = true) : b.bucket_h_financials = true := by
  simp only [DealCompletenessAnalysis.bucket_h_financials,
    decide_eq_true_iff] at ha ⊢
  refine le_trans ha (hitSum_mono ?_)
  exact .cons h.fi_fs_le (.cons h.fi_audited_le (.cons h.fi_ebitda_le
    (.cons h.fi_revrec_le (.cons h.fi_forecast_le (.cons h.fi_qoe_le
    (.cons h.cd_captable_le (.cons h.cd_debt_le .nil)))))))

/-- Bucket K presence is monotone. -/
lemma bucket_k_mono {a b : DealCompletenessAnalysis} (h : DealSignalsLE a b)
    (ha : a.bucket_k_litigation_allegations = true) :
    b.bucket_k_litigation_allegations = true := by
  simp only [DealCompletenessAnalysis.bucket_k_litigation_allegations,
    decide_eq_true_iff] at ha ⊢
  refine le_trans ha (hitSum_mono ?_)
  exact .cons h.la_lit_le (.cons h.la_alleg_le (.cons h.la_reg_le
    (.cons h.la_settl_le (.cons h.la_whistle_le (.cons h.co_bribery_le
    (.cons h.co_aml_le (.cons h.co_antitrust_le .nil)))))))

/-- Bucket coverage is monotone. -/
lemma coverage_mono {a b : DealCompletenessAnalysis} (h : DealSignalsLE a b) :
    a.calculate_bucket_coverage ≤ b.calculate_bucket_coverage := by
  unfold DealCompletenessAnalysis.calculate_bucket_coverage
  refine Nat.mul_le_mul_right 10 (hitSum_mono ?_)
  exact .cons (bucket_a_mono h) (.cons (bucket_b_mono h)
    (.cons (bucket_c_mono h) (.cons (bucket_e_mono h)
    (.cons (bucket_g_mono h) (.cons (bucket_h_mono h)
    (.cons (bucket_k_mono h) .nil))))))

/-- Evidence strength is monotone. -/
lemma evidence_mono {a b : DealCompletenessAnalysis} (h : DealSignalsLE a b) :
    a.calculate_evidence_strength ≤ b.calculate_evidence_strength := by
  unfold DealCompletenessAnalysis.calculate_evidence_strength
  refine min_le_min ?_ le_rfl
  have t1 := ite_weight_mono 6 (bor_impl h.pp_currency_le h.ev_numbers_le)
  have t2 := ite_weight_mono 6 (bor_impl h.ev_dates_le h.dates_le)
  have t3 := ite_weight_mono 4 h.ev_pct_le
  have t4 := ite_weight_mono 7 (bor_impl h.ev_defined_le h.defined_le)
  have t5 := ite_weight_mono 7 (bor_impl h.ev_sched_le h.sched_le)
  omega

/-- Hard evidence (the rule-3 disjunction) is monotone. -/
lemma hard_evidence_mono {a b : DealCompletenessAnalysis} (h : DealSignalsLE a b) :
    (a.evidence_strength.numbers_present || a.evidence_strength.dates_present ||
     a.evidence_strength.schedule_exhibit_pattern_present ||
     a.evidence_strength.defined_term_pattern_present) = true →
    (b.evidence_strength.numbers_present || b.evidence_strength.dates_present ||
     b.evidence_strength.schedule_exhibit_pattern_present ||
     b.evidence_strength.defined_term_pattern_present) = true :=
  bor_impl (bor_impl (bor_impl h.ev_numbers_le h.ev_dates_le) h.ev_sched_le)
    h.ev_defined_le

/-- If the smaller fresh record passes the hard-fail rules, so does the
larger one (given the document-type side condition and fresh flags on the
larger record). -/
lemma hard_fail_transfer {a b : DealCompletenessAnalysis}
    (h : DealSignalsLE a b) (hsa : a.scores = {}) (hfb : b.flags = {})
    (hdoc : (b.doc_meta.doc_type_guess = .teaser ∨
             b.doc_meta.doc_type_guess = .other) →
            (a.doc_meta.doc_type_guess = .teaser ∨
             a.doc_meta.doc_type_guess = .other))
    (hok : (a.check_hard_fail_rules).1 = false) :
    (b.check_hard_fail_rules).1 = false := by
  have hparties : hitSum [strPresent a.entities.buyer.name,
      strPresent a.entities.seller.name, strPresent a.entities.target.name] ≤
      hitSum [strPresent b.entities.buyer.name,
      strPresent b.entities.seller.name, strPresent b.entities.target.name] :=
    hitSum_mono (.cons h.buyer_le (.cons h.seller_le (.cons h.target_le .nil)))
  simp only [DealCompletenessAnalysis.check_hard_fail_rules] at hok ⊢
  split_ifs at hok with h1 h2 h3 h4
  rw [hsa] at h3
  split_ifs with g1 g2 g3 g4
  · exact absurd (lt_of_le_of_lt hparties g1) h1
  · have ha' : (a.deal.structure_ != DealStructure.unknown) = true := by
      simp only [bne_iff_ne, ne_eq]
      exact h2
    have hb := h.structure_le ha'
    rw [bne_iff_ne] at hb
    exact absurd g2 hb
  · rcases g3 with ⟨gev, _, gdoc⟩
    have hadoc := hdoc gdoc
    have haev : (a.evidence_strength.numbers_present ||
        a.evidence_strength.dates_present ||
        a.evidence_strength.schedule_exhibit_pattern_present ||
        a.evidence_strength.defined_term_pattern_present) = true := by
      by_contra hx
      rw [Bool.not_eq_true] at hx
      exact h3 ⟨by rw [hx]; rfl, by decide, hadoc⟩
    have hbev := hard_evidence_mono h haev
    rw [Bool.not_eq_true'] at gev
    rw [hbev] at gev
    exact absurd gev (by decide)
  · rw [hfb] at g4
    exact absurd g4.1 (by decide)
  · rfl

/-- With no hard fail, the validated overall score is coverage plus
evidence. -/
lemma validate_overall_no_hf {a : DealCompletenessAnalysis}
    (hok : (a.check_hard_fail_rules).1 = false) :
    a.validate_completeness.scores.overall_score =
      a.calculate_bucket_coverage + a.calculate_evidence_strength := by
  rcases hc : a.check_hard_fail_rules with ⟨hf, r⟩
  rw [hc] at hok; subst hok
  simp [DealCompletenessAnalysis.validate_completeness, hc]

/-- The statements score is monotone. -/
lemma statements_score_mono {st₁ st₂ : FinancialStatementType}
    (h1 : st₁.profit_and_loss_present = true → st₂.profit_and_loss_present = true)
    (h2 : st₁.balance_sheet_present = true → st₂.balance_sheet_present = true)
    (h3 : st₁.cash_flow_present = true → st₂.cash_flow_present = true) :
    statements_score st₁ ≤ statements_score st₂ := by
  unfold statements_score
  have t1 := ite_weight_mono_int 12 (by norm_num) h1
  have t2 := ite_weight_mono_int 10 (by norm_num) h2
  have t3 := ite_weight_mono_int 8 (by norm_num) h3
  omega

/-- The performance score is a monotone function of the metric count. -/
lemma performance_score_of_count_mono {m n : Nat} (h : m ≤ n) :
    performance_score_of_count m ≤ performance_score_of_count n := by
  unfold performance_score_of_count
  split_ifs <;> omega

/-- The period score is monotone. -/
lemma period_score_mono {pe₁ pe₂ : PeriodEvidence}
    (h1 : pe₁.fy_ending_present = true → pe₂.fy_ending_present = true)
    (h2 : pe₁.year_references_present = true → pe₂.year_references_present = true)
    (h3 : pe₁.quarterly_dates_present = true → pe₂.quarterly_dates_present = true)
    (h4 : pe₁.monthly_periods_present = true → pe₂.monthly_periods_present = true) :
    period_score pe₁ ≤ period_score pe₂ := by
  unfold period_score
  refine min_le_min ?_ le_rfl
  have t1 := ite_weight_mono_int 12 (by norm_num) h1
  have t2 := ite_weight_mono_int 8 (by norm_num) h2
  have t3 := ite_weight_mono_int 4 (by norm_num) h3
  have t4 := ite_weight_mono_int 3 (by norm_num) h4
  omega

/-- The numeric content score is monotone. -/
lemma numeric_score_mono {nu₁ nu₂ : NumericEvidence}
    (h1 : nu₁.substantial_numbers_present = true → nu₂.substantial_numbers_present = true)
    (h2 : nu₁.currency_amounts_present = true → nu₂.currency_amounts_present = true)
    (h3 : nu₁.percentages_present = true → nu₂.percentages_present = true)
    (h4 : nu₁.ratios_present = true → nu₂.ratios_present = true) :
    nu₁.numeric_content_score ≤ nu₂.numeric_content_score := by
  unfold NumericEvidence.numeric_content_score
  refine min_le_min ?_ le_rfl
  have t1 := ite_weight_mono_int 8 (by norm_num) h1
  have t2 := ite_weight_mono_int 5 (by norm_num) h2
  have t3 := ite_weight_mono_int 4 (by norm_num) h3
  have t4 := ite_weight_mono_int 3 (by norm_num) h4
  omega

/-- The data quality penalty is antitone: more signals, smaller penalty. -/
lemma penalty_antitone {nu₁ nu₂ : NumericEvidence}
    (hs : nu₁.substantial_numbers_present = true → nu₂.substantial_numbers_present = true)
    (hc : nu₁.currency_amounts_present = true → nu₂.currency_amounts_present = true) :
    data_quality_penalty nu₂ ≤ data_quality_penalty nu₁ := by
  unfold data_quality_penalty
  cases h1 : nu₁.substantial_numbers_present <;>
    cases h2 : nu₁.currency_amounts_present <;>
    cases h3 : nu₂.substantial_numbers_present <;>
    cases h4 : nu₂.currency_amounts_present <;>
    simp_all

/-- The raw total score is monotone in the signals. -/
lemma total_raw_mono {st₁ st₂ : FinancialStatementType}
    {pf₁ pf₂ : PerformanceMetrics} {pe₁ pe₂ : PeriodEvidence}
    {nu₁ nu₂ : NumericEvidence}
    (hfin : FinSignalsLE st₁ st₂ pf₁ pf₂ pe₁ pe₂ nu₁ nu₂) :
    total_score_raw st₁ pf₁ pe₁ nu₁ ≤ total_score_raw st₂ pf₂ pe₂ nu₂ := by
  unfold total_score_raw
  refine max_le_max le_rfl ?_
  have hA := statements_score_mono hfin.pl_le hfin.bs_le hfin.cf_le
  have hcount : pf₁.performance_items_count ≤ pf₂.performance_items_count :=
    hitSum_mono (.cons hfin.sales_le (.cons hfin.exp_le (.cons hfin.np_le
      (.cons hfin.eps_le (.cons hfin.ebitda_le .nil)))))
  have hB := performance_score_of_count_mono hcount
  have hC := period_score_mono hfin.fy_le hfin.yr_le hfin.q_le hfin.m_le
  have hD := numeric_score_mono hfin.subst_le hfin.curr_le hfin.pct_le
    hfin.ratio_le
  have hP := penalty_antitone hfin.subst_le hfin.curr_le
  omega

/-- The financial hard-fail flags are antitone: if the smaller input does
not hard-fail, neither does the larger. -/
lemma fin_rule1_transfer {st₁ st₂ : FinancialStatementType}
    {pf₁ pf₂ : PerformanceMetrics} {pe₁ pe₂ : PeriodEvidence}
    {nu₁ nu₂ : NumericEvidence}
    (hfin : FinSignalsLE st₁ st₂ pf₁ pf₂ pe₁ pe₂ nu₁ nu₂)
    (hok : ¬((calculate_scores st₁ pf₁ pe₁ nu₁).2.no_financial_statements = true ∧
             (calculate_scores st₁ pf₁ pe₁ nu₁).2.insufficient_performance_metrics = true)) :
    ¬((calculate_scores st₂ pf₂ pe₂ nu₂).2.no_financial_statements = true ∧
      (calculate_scores st₂ pf₂ pe₂ nu₂).2.insufficient_performance_metrics = true) := by
  have hcount : pf₁.performance_items_count ≤ pf₂.performance_items_count :=
    hitSum_mono (.cons hfin.sales_le (.cons hfin.exp_le (.cons hfin.np_le
      (.cons hfin.eps_le (.cons hfin.ebitda_le .nil)))))
  simp only [calculate_scores, decide_eq_true_iff, Bool.not_eq_true',
    Bool.or_eq_false_iff] at hok ⊢
  rintro ⟨⟨⟨hp2, hb2⟩, hc2⟩, hn2⟩
  refine hok ⟨⟨⟨?_, ?_⟩, ?_⟩, lt_of_le_of_lt hcount hn2⟩
  · cases hx : st₁.profit_and_loss_present
    · rfl
    · rw [hfin.pl_le hx] at hp2; exact hp2
  · cases hx : st₁.balance_sheet_present
    · rfl
    · rw [hfin.bs_le hx] at hb2; exact hb2
  · cases hx : st₁.cash_flow_present
    · rfl
    · rw [hfin.cf_le hx] at hc2; exact hc2

/-- With no financial hard-fail, the reported overall score is the raw
total. -/
lemma fin_overall_eq_raw (st : FinancialStatementType)
    (pf : PerformanceMetrics) (pe : PeriodEvidence) (nu : NumericEvidence)
    (hok : ¬((calculate_scores st pf pe nu).2.no_financial_statements = true ∧
             (calculate_scores st pf pe nu).2.insufficient_performance_metrics = true)) :
    (calculate_scores st pf pe nu).1.overall_score =
      total_score_raw st pf pe nu := by
  simp only [calculate_scores] at hok ⊢
  rw [if_neg hok]

/-- C9.  Monotonicity: for signal records ordered pointwise (the effect of
extending a text with material that only adds keyword/evidence matches),
if the smaller legal input does not trigger a hard-fail rule (with fresh
scores and flags, as in `analyze_document`), neither does the larger, and
the legal `overall_score` does not decrease; likewise, if the smaller
financial input does not trigger the financial hard-fail rule, the
financial `overall_score` (total score) does not decrease. -/
theorem score_monotonicity (a b : DealCompletenessAnalysis)
    (hsa : a.scores = {}) (hfb : b.flags = {})
    (hdoc : (b.doc_meta.doc_type_guess = .teaser ∨
             b.doc_meta.doc_type_guess = .other) →
            (a.doc_meta.doc_type_guess = .teaser ∨
             a.doc_meta.doc_type_guess = .other))
    (h : DealSignalsLE a b)
    (hok : (a.check_hard_fail_rules).1 = false)
    (st₁ st₂ : FinancialStatementType) (pf₁ pf₂ : PerformanceMetrics)
    (pe₁ pe₂ : PeriodEvidence) (nu₁ nu₂ : NumericEvidence)
    (hfin : FinSignalsLE st₁ st₂ pf₁ pf₂ pe₁ pe₂ nu₁ nu₂)
    (hfok : ¬((calculate_scores st₁ pf₁ pe₁ nu₁).2.no_financial_statements = true ∧
              (calculate_scores st₁ pf₁ pe₁ nu₁).2.insufficient_performance_metrics = true)) :
    ((b.check_hard_fail_rules).1 = false ∧
     a.validate_completeness.scores.overall_score ≤
       b.validate_completeness.scores.overall_score) ∧
    (calculate_scores st₁ pf₁ pe₁ nu₁).1.overall_score ≤
      (calculate_scores st₂ pf₂ pe₂ nu₂).1.overall_score := by
  have hokb := hard_fail_transfer h hsa hfb hdoc hok
  refine ⟨⟨hokb, ?_⟩, ?_⟩
  · rw [validate_overall_no_hf hok, validate_overall_no_hf hokb]
    exact Nat.add_le_add (coverage_mono h) (evidence_mono h)
  · have hok₂ := fin_rule1_transfer hfin hfok
    rw [fin_overall_eq_raw _ _ _ _ hfok, fin_overall_eq_raw _ _ _ _ hok₂]
    exact total_raw_mono hfin

/-- Witness for C9: `mediumAnalysis ≤ richAnalysis` (legal, overall 32 vs
100) and one-statement/two-metric signals below the all-true financial
signals (total 22 vs 100). -/
theorem score_monotonicity_witness :
    ((richAnalysis.check_hard_fail_rules).1 = false ∧
     mediumAnalysis.validate_completeness.scores.overall_score ≤
       richAnalysis.validate_completeness.scores.overall_score) ∧
    (calculate_scores minimalFinStatements minimalFinMetrics {} {}).1.overall_score ≤
      (calculate_scores fullFinStatements fullFinMetrics fullFinPeriods fullFinNumeric).1.overall_score :=
  score_monotonicity mediumAnalysis richAnalysis rfl rfl (by decide)
    (by constructor <;> decide) (by decide)
    minimalFinStatements fullFinStatements minimalFinMetrics fullFinMetrics
    {} fullFinPeriods {} fullFinNumeric
    (by constructor <;> decide) (by decide)

/-- Witness for the amended C7 at three distinct suffix-pattern matches. -/
theorem entity_positional_assignment_witness :
    ([("Acme Alpha Inc", 0), ("Bravo Beta Corp", 40),
        ("Gamma Delta LLC", 80)].map Prod.fst).Nodup ∧
    extract_entities
        [("Acme Alpha Inc", 0), ("Bravo Beta Corp", 40),
         ("Gamma Delta LLC", 80)] [] =
      { buyer := { name := "Acme Alpha Inc" },
        seller := { name := "Bravo Beta Corp" },
        target := { name := "Gamma Delta LLC" } } :=
  ⟨by decide,
   entity_positional_assignment
     [("Acme Alpha Inc", 0), ("Bravo Beta Corp", 40), ("Gamma Delta LLC", 80)]
     (by decide) (by decide)⟩
